import Mathlib

/-!
# Verification of the Blinky call-audio processing service

Shallow embedding of the audio-processing pipeline of
`Bahadou-Badr/Blinky-call-audio-processing-service` (Go), covering:

* the diagnostic-text parsers (`EstimateQuality`, `GetNoiseLevel`) of
  `internal/audio` (quality.go / processor parts),
* the denoise-method resolution, filter-chain construction, dB→linear
  conversion and float formatting of `ProcessFile`,
* the worker loop `processSingleJob` of `cmd/worker/main.go` together with
  the SQL semantics of the job store (`internal/store/store.go`).

Modelling conventions:

* Go `float64` values that only flow through parsing, comparison and
  formatting are modelled as exact rationals (`ℚ`); the result of
  `math.Pow` (a transcendental) is modelled as the exact real (`ℝ`).
* External effects (`exec.LookPath`, subprocess output, `os.Stat`,
  S3 upload) are supplied by an environment record `Env` / `WorkerEnv`;
  the functions under verification are the pure logic layered on top,
  translated statement by statement from the Go source.
* Errors are `Except String` / `Option`, with the Go error strings kept
  verbatim (elapsed-time fragments of messages are elided as untestable).
-/

namespace Blinky

/-! ## Character-level helpers shared by the diagnostic parsers

The Go code extracts numbers from ffmpeg diagnostics with `regexp`.
The three `astats` patterns `RMS_level_dB:\s*(-?\d+\.\d+)` (and the Peak /
Noise variants) and the volumedetect pattern
`mean_volume:\s*([-+]?[0-9]*\.?[0-9]+)\s*dB` are implemented here as
leftmost-first matchers over `List Char`, following Go regexp semantics. -/

/-- `\s` of Go `regexp`: the character class `[\t\n\f\r ]`. -/
def isGoSpace (c : Char) : Bool :=
  c = ' ' || c = '\t' || c = '\n' || c = '\x0c' || c = '\r'

/-- Drop the maximal run of `\s` characters (greedy `\s*`). -/
def skipSpaces (l : List Char) : List Char :=
  l.dropWhile isGoSpace

/-- Split a character list at the maximal leading run of ASCII digits. -/
def spanDigits : List Char → List Char × List Char
  | [] => ([], [])
  | c :: cs =>
    if c.isDigit then
      let (d, r) := spanDigits cs
      (c :: d, r)
    else ([], c :: cs)

/-- Numeric value of a digit run (most significant first). -/
def digitsToNat (l : List Char) : Nat :=
  l.foldl (fun a c => 10 * a + (c.toNat - 48)) 0

/-- Exact value of `<intDigits>.<fracDigits>`; models `strconv.ParseFloat`
on the captured text (the float64 rounding of the parse is elided: all
values compared by the claims are exactly representable). -/
def decVal (ip fp : List Char) : ℚ :=
  (digitsToNat ip : ℚ) + (digitsToNat fp : ℚ) / (10 : ℚ) ^ fp.length

/-- Match `-?\d+\.\d+` at the head of the list (the `astats` number shape:
sign, one or more digits, a dot, one or more digits). -/
def parseStrictDecimal (l : List Char) : Option ℚ :=
  let (neg, l1) : Bool × List Char :=
    match l with
    | '-' :: rest => (true, rest)
    | _ => (false, l)
  let (ip, r1) := spanDigits l1
  if ip = [] then none
  else
    match r1 with
    | '.' :: r2 =>
      let (fp, _) := spanDigits r2
      if fp = [] then none
      else some ((if neg then (-1 : ℚ) else 1) * decVal ip fp)
    | _ => none

/-- Try a sub-matcher at every position, leftmost first: Go
`regexp.FindStringSubmatch` returns the leftmost match of the pattern. -/
def scanWith (f : List Char → Option ℚ) : List Char → Option ℚ
  | [] => none
  | c :: cs =>
    match f (c :: cs) with
    | some v => some v
    | none => scanWith f cs

/-- Matcher body for `<lit>\s*(-?\d+\.\d+)` anchored at the current
position (used for the three `astats` series regexes). -/
def statTryAt (lit : List Char) (l : List Char) : Option ℚ :=
  if lit.isPrefixOf l then
    parseStrictDecimal (skipSpaces (l.drop lit.length))
  else none

/-- Leftmost match of `<lit>\s*(-?\d+\.\d+)` in a line, as parsed value. -/
def statMatch (lit : List Char) (l : List Char) : Option ℚ :=
  scanWith (statTryAt lit) l

/-- Split on `'\n'`, as `strings.Split(output, "\n")` does (an empty text
is one empty line). -/
def splitLines : List Char → List (List Char)
  | [] => [[]]
  | c :: cs =>
    if c = '\n' then [] :: splitLines cs
    else
      match splitLines cs with
      | [] => [[c]]
      | l :: ls => (c :: l) :: ls

/-! ## Quality estimator (`EstimateQuality`, src/unnamed/part_003)

The Go loop walks every line of the combined ffmpeg output, matches the
three regexes, parses each capture and appends it to the per-series slice
only when the parsed value is non-zero (`if v != 0`).  `avg` of an empty
slice is `math.NaN()`; a NaN average is modelled as `none`. -/

def rmsLit : List Char := "RMS_level_dB:".data

def peakLit : List Char := "Peak_level_dB:".data

def noiseLit : List Char := "Noise_level:".data

/-- One series of the extraction loop: per line, the regex capture parsed,
kept only when non-zero (lines 50–66 of src/unnamed/part_003). -/
def seriesOf (lit : List Char) (out : String) : List ℚ :=
  (splitLines out.data).foldl
    (fun acc line =>
      match statMatch lit line with
      | some v => if v ≠ 0 then acc ++ [v] else acc
      | none => acc)
    []

def rmsSeries (out : String) : List ℚ := seriesOf rmsLit out

def peakSeries (out : String) : List ℚ := seriesOf peakLit out

def noiseSeries (out : String) : List ℚ := seriesOf noiseLit out

/-- `avg` (lines 93–102): arithmetic mean; `math.NaN()` on an empty slice,
modelled as `none`. -/
def avg (vals : List ℚ) : Option ℚ :=
  if vals = [] then none
  else some (vals.sum / (vals.length : ℚ))

/-- The aggregate result of `EstimateQuality`; `none` fields stand for the
Go NaN values (`Duration`/`AnalyzedAt` are elided: the former is the
constant `0.0`, the latter a wall-clock timestamp). -/
structure QualityMetrics where
  SNR : ℚ
  RMSLevel : Option ℚ
  PeakLevel : Option ℚ
  NoiseLevel : Option ℚ
  deriving DecidableEq, Repr

/-- `EstimateQuality` (lines 26–91 of src/unnamed/part_003) applied to the
captured ffmpeg output text: extract the three series, fail when the RMS
series is empty, average each series, and derive
`snr := 0.0; if !IsNaN(peak) && !IsNaN(rms) { snr = peak - rms }`. -/
def EstimateQuality (out : String) : Except String QualityMetrics :=
  let rmsVals := rmsSeries out
  let peakVals := peakSeries out
  let noiseVals := noiseSeries out
  if rmsVals = [] then .error "no RMS_level values found"
  else
    let rmsAvg := avg rmsVals
    let peakAvg := avg peakVals
    let noiseAvg := avg noiseVals
    let snr : ℚ :=
      match peakAvg, rmsAvg with
      | some p, some r => p - r
      | _, _ => 0
    .ok ⟨snr, rmsAvg, peakAvg, noiseAvg⟩

/-! ## Mean-volume noise-floor estimator (`GetNoiseLevel`)

Pattern `mean_volume:\s*([-+]?[0-9]*\.?[0-9]+)\s*dB` over the whole
volumedetect stderr text (lines 288–305 of src/unnamed/part_004). -/

def mvLit : List Char := "mean_volume:".data

def dbLit : List Char := "dB".data

/-- Matcher body for the volumedetect pattern at the current position:
after the literal and `\s*`, an optional sign, then `[0-9]*\.?[0-9]+`
(greedy with the one backtracking step Go regexp would take: the
with-dot decomposition is preferred, the integer-only decomposition is
the fallback), then `\s*dB`. -/
def mvTryAt (l : List Char) : Option ℚ :=
  if mvLit.isPrefixOf l then
    let r0 := skipSpaces (l.drop mvLit.length)
    let (sgn, r1) : ℚ × List Char :=
      match r0 with
      | '-' :: rest => (-1, rest)
      | '+' :: rest => (1, rest)
      | _ => (1, r0)
    let (ip, r2) := spanDigits r1
    let withDot : Option (ℚ × List Char) :=
      match r2 with
      | '.' :: r3 =>
        let (fp, r4) := spanDigits r3
        if fp = [] then none else some (decVal ip fp, r4)
      | _ => none
    let intOnly : Option (ℚ × List Char) :=
      if ip = [] then none else some ((digitsToNat ip : ℚ), r2)
    let check : ℚ × List Char → Option ℚ := fun p =>
      if dbLit.isPrefixOf (skipSpaces p.2) then some (sgn * p.1) else none
    match withDot with
    | some cand =>
      match check cand with
      | some v => some v
      | none => intOnly.bind check
    | none => intOnly.bind check
  else none

/-- Leftmost match of the `mean_volume` pattern in the whole text. -/
def parseMeanVolume (out : String) : Option ℚ :=
  scanWith mvTryAt out.data

/-! ## Configuration records (src/unnamed/part_004 lines 18–58)

Go `float64` configuration fields are modelled as `ℚ` (they are decimal
literals everywhere in the repository), `int` fields as `Int`. -/

structure CompressorConf where
  ThresholdDB : ℚ
  Ratio : ℚ
  Attack : Int
  Release : Int
  deriving DecidableEq, Repr

structure LimiterConf where
  ThresholdDB : ℚ
  deriving DecidableEq, Repr

structure ProcessOptions where
  DenoiseMethod : String
  TargetLUFS : ℚ
  SampleRate : Int
  Channels : Int
  UseCompressor : Bool
  Compressor : CompressorConf
  UseLimiter : Bool
  Limiter : LimiterConf
  deriving DecidableEq, Repr

/-! ## String helpers mirroring the `strings` package -/

/-- `strings.ToLower` (ASCII-relevant part; all method names are ASCII). -/
def goToLower (s : String) : String :=
  String.mk (s.data.map Char.toLower)

/-- `strings.TrimSpace` (ASCII whitespace part). -/
def goTrimSpace (s : String) : String :=
  String.mk (((s.data.dropWhile isGoSpace).reverse.dropWhile isGoSpace).reverse)

/-- `strings.ToLower(strings.TrimSpace(m))`, the normalisation applied to
`opts.DenoiseMethod` at line 89 of src/unnamed/part_004. -/
def normMethod (s : String) : String :=
  goToLower (goTrimSpace s)

/-- Substring occurrence over character lists. -/
def hasSubstr (needle : List Char) : List Char → Bool
  | [] => needle.isEmpty
  | c :: cs => needle.isPrefixOf (c :: cs) || hasSubstr needle cs

/-- `strings.Contains` (substring test). -/
def strContains (hay needle : String) : Bool :=
  hasSubstr needle.data hay.data

/-! ## Environment of external effects

Everything `ProcessFile` observes from the outside world — binary lookup,
subprocess outputs, the filesystem and the external denoiser — is an
oracle field.  The functions below are the Go control flow over it. -/

structure Env where
  /-- `exec.LookPath("ffmpeg")` succeeds. -/
  ffmpegPresent : Bool
  /-- error text of the failed ffmpeg lookup (wrapped with `%w`). -/
  lookPathFfmpegErr : String
  /-- `exec.LookPath("ffprobe")` succeeds. -/
  ffprobePresent : Bool
  /-- error text of the failed ffprobe lookup. -/
  lookPathFfprobeErr : String
  /-- stderr text of the `volumedetect` run parsed by `GetNoiseLevel`. -/
  volumedetectOut : String
  /-- outcome of `runNoisereduce`: `some out` when the helper exited
  successfully and its output file exists, `none` on any failure. -/
  noisereduceResult : Option String
  /-- `ffmpeg -filters` ran without error. -/
  filtersCmdOk : Bool
  /-- combined output of `ffmpeg -filters`. -/
  filtersOut : String
  /-- value of `os.Getenv("RNNOISE_MODEL_PATH")` (empty when unset). -/
  rnModelEnvVar : String
  /-- `os.Stat(path)` succeeds for a given path. -/
  modelFileExists : String → Bool
  /-- the apply-pass ffmpeg invocation exits successfully. -/
  applyOk : Bool
  /-- error/stderr text of a failed apply pass. -/
  applyErrText : String

/-- `ffmpegHasFilter` (lines 219–232 of src/unnamed/part_004): ffmpeg must
be on the path, `ffmpeg -filters` must run, and the filter name must occur
as a substring of its combined output. -/
def ffmpegHasFilter (env : Env) (name : String) : Bool :=
  env.ffmpegPresent && env.filtersCmdOk && strContains env.filtersOut name

/-- `GetNoiseLevel` (lines 288–305): parse `mean_volume: <v> dB` out of
the volumedetect diagnostics; absence of the token is an error for this
call. -/
def GetNoiseLevel (env : Env) (_path : String) : Except String ℚ :=
  match parseMeanVolume env.volumedetectOut with
  | some v => .ok v
  | none => .error "mean_volume not found"

/-- The RNNoise model path (lines 106–109): the `RNNOISE_MODEL_PATH`
environment variable, defaulting to `tools/models/rnnoise-model.rnnn`. -/
def rnModelPath (env : Env) : String :=
  if env.rnModelEnvVar = "" then "tools/models/rnnoise-model.rnnn"
  else env.rnModelEnvVar

/-- Denoise-method resolution, step 1 of `ProcessFile`
(lines 87–126 of src/unnamed/part_004).  Returns the (possibly
substituted) apply-pass input path and the ffmpeg-side denoise filter
(`""` means no in-engine denoise stage). -/
def resolveDenoise (env : Env) (inputPathAbs : String) (method : String) :
    String × String :=
  let dnMethod := normMethod method
  if dnMethod = "noisereduce" then
    match env.noisereduceResult with
    | none => (inputPathAbs, "")
    | some denoisedPath => (denoisedPath, "")
  else
    if dnMethod = "arnndn" || dnMethod = "rnnoise" then
      if ffmpegHasFilter env "arnndn" then
        let rnModel := rnModelPath env
        if env.modelFileExists rnModel then
          (inputPathAbs, "arnndn=m=" ++ rnModel)
        else (inputPathAbs, "afftdn")
      else (inputPathAbs, "afftdn")
    else (inputPathAbs, "afftdn")

/-! ## Filter-chain construction (lines 131–179)

The Go code builds the chain as a `[]string` of rendered stages; the
numeric rendering of the dynamics thresholds goes through `math.Pow`,
whose exact-real model is not computable.  The chain is therefore built
as a list of stage descriptors carrying the source parameters, and a
separate `renderStage` function (below, with the real-number layer)
produces exactly the strings the Go code appends.  `buildChain` mirrors
the sequential appends to `filterParts`. -/

inductive Stage where
  | denoise (filter : String)
  | loudnorm (targetLufs : ℚ)
  | compressor (thresholdDB ratio : ℚ) (attack release : Int)
  | limiter (thresholdDB : ℚ)
  | resample (rate : Int)
  deriving DecidableEq, Repr

/-- Is the stage a denoise stage? -/
def stageIsDenoise : Stage → Bool
  | .denoise _ => true
  | _ => false

/-- The `filterParts` construction (lines 132–177): optional denoise
stage, unconditional loudnorm stage, optional compressor, optional
limiter, unconditional final resample. -/
def buildChain (denoiseFilter : String) (opts : ProcessOptions) : List Stage :=
  let filterParts : List Stage := []
  let filterParts :=
    if denoiseFilter ≠ "" then filterParts ++ [Stage.denoise denoiseFilter]
    else filterParts
  let filterParts := filterParts ++ [Stage.loudnorm opts.TargetLUFS]
  let filterParts :=
    if opts.UseCompressor then
      filterParts ++ [Stage.compressor opts.Compressor.ThresholdDB
        opts.Compressor.Ratio opts.Compressor.Attack opts.Compressor.Release]
    else filterParts
  let filterParts :=
    if opts.UseLimiter then
      filterParts ++ [Stage.limiter opts.Limiter.ThresholdDB]
    else filterParts
  filterParts ++ [Stage.resample opts.SampleRate]

/-! ## `ProcessFile` (lines 65–216)

The result distinguishes the three observable outcomes; `procError`
projects it onto the Go `(*Stats, error)` error value.  The elapsed-time
fragment of the apply-failure message is elided (wall-clock time); the
best-effort `MeasureLoudness`/`GetDuration` calls have no observable
effect on any claim and are elided with their ignored errors. -/

inductive ProcResult where
  | earlyErr (msg : String)
  | applyFailed (input : String) (chain : List Stage) (msg : String)
  | ok (input : String) (chain : List Stage) (noiseLevel : ℚ)
  deriving DecidableEq, Repr

/-- The error value `ProcessFile` returns, if any. -/
def procError : ProcResult → Option String
  | .earlyErr m => some m
  | .applyFailed _ _ m => some m
  | .ok _ _ _ => none

/-- The apply-pass invocation (input path and filter chain), when the
control flow reaches it. -/
def applyCallOf : ProcResult → Option (String × List Stage)
  | .earlyErr _ => none
  | .applyFailed i c _ => some (i, c)
  | .ok i c _ => some (i, c)

/-- `ProcessFile` (src/unnamed/part_004 lines 65–216): binary checks,
noise-level measurement (a hard error), denoise resolution, chain
construction, apply pass.  `inputPathAbs` is the absolute input path
(`filepath.Abs` is modelled as the identity on the given path). -/
def ProcessFile (env : Env) (inputPathAbs : String) (opts : ProcessOptions) :
    ProcResult :=
  if !env.ffmpegPresent then
    .earlyErr ("ffmpeg not found in PATH: " ++ env.lookPathFfmpegErr)
  else if !env.ffprobePresent then
    .earlyErr ("ffprobe not found in PATH: " ++ env.lookPathFfprobeErr)
  else
    match GetNoiseLevel env inputPathAbs with
    | .error e => .earlyErr ("GetNoiseLevel  not work with the PATH: " ++ e)
    | .ok noiseLevel =>
      let resolved := resolveDenoise env inputPathAbs opts.DenoiseMethod
      let chain := buildChain resolved.2 opts
      if env.applyOk then .ok resolved.1 chain noiseLevel
      else .applyFailed resolved.1 chain ("ffmpeg apply failed: " ++ env.applyErrText)

/-! ## Job store semantics (internal/store/store.go) and the worker loop
(cmd/worker/main.go, src/unnamed/part_001 lines 111–229) -/

/-- The store mutations the worker issues, in issue order. -/
inductive StoreCall where
  | setStarted
  | updateProgress (p : Int)
  | setFinished
  | setFailed (msg : String)
  | updateStorage
  | updateMetadata
  deriving DecidableEq, Repr

/-- The job row (status / progress / error columns of `audio_jobs`). -/
structure JobRec where
  status : String
  progress : Int
  errorMsg : Option String
  deriving DecidableEq, Repr

/-- A freshly created job row: `status='queued'`, `progress` defaults 0. -/
def initJob : JobRec := ⟨"queued", 0, none⟩

/-- SQL semantics of each store method (store.go lines 102–136):
`SetStarted` sets status `processing`; `UpdateProgress` sets progress;
`SetFinished` sets status `done` and progress 100; `SetFailed` sets
status `failed` and the error message (timestamps elided). -/
def applyStoreCall (j : JobRec) : StoreCall → JobRec
  | .setStarted => { j with status := "processing" }
  | .updateProgress p => { j with progress := p }
  | .setFinished => { j with status := "done", progress := 100 }
  | .setFailed m => { j with status := "failed", errorMsg := some m }
  | .updateStorage => j
  | .updateMetadata => j

/-- Replay a call trace against a job row. -/
def runTrace (j : JobRec) (t : List StoreCall) : JobRec :=
  t.foldl applyStoreCall j

/-- External effects seen by one `processSingleJob` invocation, beyond
those of `ProcessFile`. -/
structure WorkerEnv where
  env : Env
  /-- `uuid.Parse(jm.ID)` succeeds. -/
  validId : Bool
  /-- the S3 upload succeeds. -/
  uploadOk : Bool
  /-- error text of a failed upload. -/
  uploadErrText : String

/-- The hard-coded per-job options of `processSingleJob`
(lines 123–139 of src/unnamed/part_001). -/
def workerOpts (denoiseMethod : String) : ProcessOptions :=
  { DenoiseMethod := denoiseMethod
    TargetLUFS := -16
    SampleRate := 48000
    Channels := 1
    UseCompressor := true
    Compressor := ⟨-20, 31 / 10, 5, 120⟩
    UseLimiter := true
    Limiter := ⟨-1⟩ }

/-- `processSingleJob` (lines 111–229) as the trace of store calls it
issues: drop the job on an unparsable id; otherwise SetStarted,
progress 10, progress 20, ProcessFile; on ProcessFile error SetFailed
with `err.Error()` and return; otherwise progress 70, upload; on upload
error SetFailed and return; otherwise UpdateJobStorage,
UpdateJobMetadata, progress 100, SetFinished.  (The best-effort quality /
loudness / presign / metrics calls touch no store state.) -/
def processSingleJob (w : WorkerEnv) (inputPath denoiseMethod : String) :
    List StoreCall :=
  if !w.validId then []
  else
    [.setStarted, .updateProgress 10, .updateProgress 20] ++
    match ProcessFile w.env inputPath (workerOpts denoiseMethod) with
    | .earlyErr m => [.setFailed m]
    | .applyFailed _ _ m => [.setFailed m]
    | .ok _ _ _ =>
      [.updateProgress 70] ++
      if !w.uploadOk then
        [.setFailed ("s3 upload failed: " ++ w.uploadErrText)]
      else
        [.updateStorage, .updateMetadata, .updateProgress 100, .setFinished]

/-- Collapse equal adjacent values (for the observable progress
trajectory: consecutive writes of the same value are not a new observed
progress value). -/
def dedupAdj : List Int → List Int
  | [] => []
  | [a] => [a]
  | a :: b :: r => if a = b then dedupAdj (b :: r) else a :: dedupAdj (b :: r)

/-- The observable progress trajectory of a trace: the progress column
after each store call (initial row included), equal adjacent values
collapsed. -/
def progressTrajectory (t : List StoreCall) : List Int :=
  dedupAdj ((t.scanl applyStoreCall initJob).map (fun j => j.progress))

/-- Does a store call write the status column? -/
def isStatusCall : StoreCall → Bool
  | .setStarted => true
  | .setFinished => true
  | .setFailed _ => true
  | _ => false

/-- Does a store call move the job to a terminal status? -/
def isTerminalCall : StoreCall → Bool
  | .setFinished => true
  | .setFailed _ => true
  | _ => false

/-- Once a trace has set a terminal status, no later call writes the
status column again. -/
def noReentry : List StoreCall → Bool
  | [] => true
  | c :: rest =>
    if isTerminalCall c then rest.all (fun d => !isStatusCall d)
    else noReentry rest

/-! ## dB → linear conversion (lines 142–171 of src/unnamed/part_004)

`math.Pow(10.0, dB/20.0)` is modelled as the exact real power; the
subsequent clamp to `[0.000976563, 1.0]` is the literal Go comparison
chain. -/

/-- The clamp floor literal `0.000976563` of the Go source. -/
def clampFloor : ℚ := 976563 / 10 ^ 9

/-- `linear = 10^(dB/20)` (line 146 / 162). -/
noncomputable def dbToLinear (dB : ℚ) : ℝ :=
  (10 : ℝ) ^ ((dB : ℝ) / 20)

/-- The clip to the representable ffmpeg range (lines 148–152 / 163–167):
raise below the floor, lower above 1. -/
noncomputable def clampLinear (x : ℝ) : ℝ :=
  if x < (clampFloor : ℝ) then (clampFloor : ℝ)
  else if x > 1 then 1
  else x

/-- The linear threshold actually embedded in the compressor/limiter
stage. -/
noncomputable def dbToLinearClamped (dB : ℚ) : ℝ :=
  clampLinear (dbToLinear dB)

/-! ## Float formatting (`stripTrailingZeros`, lines 236–245)

`strconv.FormatFloat(f, 'f', 6, 64)` prints the value with exactly six
digits after the decimal point, correctly rounded (ties to even); the
function then trims trailing `'0'`s, then trailing `'.'`s, and guards an
empty result with `"0"`.  The rounding is modelled on the exact value
(`ℚ` for computable inputs, `ℝ` for the `math.Pow` results). -/

/-- Round `q * 10^6` to the nearest integer, ties to even. -/
def round6Q (q : ℚ) : ℤ :=
  let y : ℚ := q * 10 ^ 6
  let n : ℤ := ⌊y⌋
  if y - (n : ℚ) > 1 / 2 then n + 1
  else if y - (n : ℚ) < 1 / 2 then n
  else if Even n then n else n + 1

/-- The same rounding on the exact-real model of a float64. -/
noncomputable def round6R (x : ℝ) : ℤ :=
  let y : ℝ := x * 10 ^ 6
  let n : ℤ := ⌊y⌋
  if y - (n : ℝ) > 1 / 2 then n + 1
  else if y - (n : ℝ) < 1 / 2 then n
  else if Even n then n else n + 1

/-- Left-pad a digit list with `'0'` to width `w`. -/
def padZeros (s : List Char) (w : Nat) : List Char :=
  List.replicate (w - s.length) '0' ++ s

/-- Fixed-point rendering with six decimals of the scaled integer
`n = round(value * 10^6)`: the output of
`strconv.FormatFloat(value, 'f', 6, 64)`. -/
def fixed6 (n : ℤ) : String :=
  (if n < 0 then "-" else "") ++
    toString (n.natAbs / 1000000) ++ "." ++
    String.mk (padZeros (toString (n.natAbs % 1000000)).data 6)

/-- `strings.TrimRight(s, cutset)` for a one-character cutset. -/
def trimRightChar (c : Char) (s : String) : String :=
  String.mk ((s.data.reverse.dropWhile (fun d => d = c)).reverse)

/-- Lines 239–244: trim trailing zeros, then a trailing dot, and guard
the empty string with `"0"`. -/
def stripFromScaled (n : ℤ) : String :=
  let s := fixed6 n
  let s := trimRightChar '0' s
  let s := trimRightChar '.' s
  if s = "" then "0" else s

/-- `stripTrailingZeros` (lines 236–245) on the exact-rational model of a
float64 value. -/
def stripTrailingZeros (q : ℚ) : String :=
  stripFromScaled (round6Q q)

/-- `stripTrailingZeros` applied to an exact-real modelled float64 (the
`math.Pow` results). -/
noncomputable def stripTrailingZerosR (x : ℝ) : String :=
  stripFromScaled (round6R x)

/-- Go `fmt` `%v` rendering of a float64, for the decimal configuration
values the service passes through it (target LUFS, compressor ratio):
shortest decimal without exponent.  Modelled, like `%f`-with-trim, as the
six-decimal rounding with trailing zeros stripped, which coincides with
`%v` on every decimal of at most six fractional digits. -/
def goFmtV (q : ℚ) : String :=
  stripTrailingZeros q

/-- Go `%d` of an int. -/
def goFmtD (n : Int) : String :=
  toString n

/-- Render one stage descriptor to the exact string the Go code appends
to `filterParts` (lines 133–177): the denoise filter verbatim,
`loudnorm=I=<target>:TP=-1.5:LRA=7`,
`acompressor=threshold=<lin>:ratio=<r>:attack=<a>:release=<rel>` with the
converted+clamped+formatted threshold, `alimiter=limit=<lin>`, and
`aresample=<rate>`. -/
noncomputable def renderStage : Stage → String
  | .denoise f => f
  | .loudnorm target => "loudnorm=I=" ++ goFmtV target ++ ":TP=-1.5:LRA=7"
  | .compressor thresholdDB ratio attack release =>
    "acompressor=threshold=" ++ stripTrailingZerosR (dbToLinearClamped thresholdDB) ++
      ":ratio=" ++ goFmtV ratio ++ ":attack=" ++ goFmtD attack ++
      ":release=" ++ goFmtD release
  | .limiter thresholdDB =>
    "alimiter=limit=" ++ stripTrailingZerosR (dbToLinearClamped thresholdDB)
  | .resample rate => "aresample=" ++ goFmtD rate

/-- The `-af` argument: the rendered stages joined with `","`
(line 179). -/
noncomputable def filterChain (denoiseFilter : String) (opts : ProcessOptions) : String :=
  String.intercalate "," ((buildChain denoiseFilter opts).map renderStage)

/-- Is a resolved denoise filter the neural (`arnndn`) stage?  The stage
the code builds for it is `arnndn=m=<model>`. -/
def isNeuralStage (s : String) : Bool :=
  "arnndn=m=".data.isPrefixOf s.data

instance : DecidableEq (Except String QualityMetrics) := fun a b =>
  match a, b with
  | .ok x, .ok y =>
    if h : x = y then isTrue (by rw [h]) else isFalse (by simp [h])
  | .error x, .error y =>
    if h : x = y then isTrue (by rw [h]) else isFalse (by simp [h])
  | .ok _, .error _ => isFalse (by simp)
  | .error _, .ok _ => isFalse (by simp)

/-! ## Concrete environments used by the witnesses and counterexamples -/

/-- An environment in which every external step succeeds: both binaries
present, the volumedetect diagnostics carry a `mean_volume` token, the
external denoiser is not invoked/failing, the ffmpeg build lists
`arnndn`, the model file exists, and the apply pass succeeds. -/
def envAllOk : Env :=
  { ffmpegPresent := true
    lookPathFfmpegErr := ""
    ffprobePresent := true
    lookPathFfprobeErr := ""
    volumedetectOut := "[Parsed_volumedetect_0] mean_volume: -30.0 dB"
    noisereduceResult := none
    filtersCmdOk := true
    filtersOut := " ... arnndn  Reduce noise from speech using Recurrent Neural Networks"
    rnModelEnvVar := ""
    modelFileExists := fun _ => true
    applyOk := true
    applyErrText := "" }

/-- Worker environment: valid id, everything succeeding. -/
def wAllOk : WorkerEnv := ⟨envAllOk, true, true, ""⟩

/-- Worker environment: valid id, apply pass failing. -/
def wApplyFail : WorkerEnv :=
  ⟨{ envAllOk with
      applyOk := false
      applyErrText := "exit status 1 - stderr: Error while filtering" },
    true, true, ""⟩

/-- Worker environment: ffmpeg missing from the execution path. -/
def wNoFfmpeg : WorkerEnv :=
  ⟨{ envAllOk with
      ffmpegPresent := false
      lookPathFfmpegErr := "exec: \"ffmpeg\": executable file not found in $PATH" },
    true, true, ""⟩

/-- Worker environment: the volumedetect diagnostics carry no
`mean_volume` token; everything else would succeed. -/
def wNoMeanVol : WorkerEnv :=
  ⟨{ envAllOk with volumedetectOut := "[Parsed_volumedetect_0] n_samples: 0" },
    true, true, ""⟩

/-- Environment in which the external `noisereduce` helper succeeds. -/
def envNrOk : Env :=
  { envAllOk with noisereduceResult := some "/tmp/nr_out_17_in.wav" }

/-- The astats diagnostic series of §8 of the spec: RMS readings
`[0, -40, 0, -42]`. -/
def c8text : String :=
  "RMS_level_dB: 0.0\nRMS_level_dB: -40.0\nRMS_level_dB: 0.0\nRMS_level_dB: -42.0"

/-- Diagnostics with one RMS and one peak reading. -/
def c6text : String :=
  "RMS_level_dB: -40.0\nPeak_level_dB: -10.0"

/-! # Theorems -/

/-! ## C8 — zero readings are excluded from the RMS average -/

unseal Rat.mul Rat.add Rat.sub Rat.inv in
/-- C8: on a matched RMS diagnostic series `[0, -40, 0, -42]` the two
zero readings are discarded at extraction time, and the computed RMS
average is `-41` dB, the arithmetic mean of the two non-zero readings
alone. -/
theorem c8_rms_zero_readings_excluded :
    rmsSeries c8text = [-40, -42] ∧
    EstimateQuality c8text = .ok ⟨0, some (-41), none, none⟩ := by
  decide

/-! ## C6 — empty series, NaN propagation and the SNR fallback

The claim states that the SNR is "unknown, never 0" when either operand
is unknown.  The code (lines 77–81 of src/unnamed/part_003) initialises
`snr := 0.0` and only overwrites it when *both* averages are non-NaN, so
an unknown peak average yields the value 0, not NaN; moreover an empty
RMS series makes `EstimateQuality` return an error rather than a NaN
metric.  The counterexample below exhibits both; the amended theorem
states the actual aggregation behaviour. -/

unseal Rat.mul Rat.add Rat.sub Rat.inv in
/-- C6 counterexample: for diagnostics with a single RMS reading and no
peak reading, the peak average is unknown (NaN, modelled `none`) and yet
the returned SNR is exactly `0` — refuting "SNR is itself unknown (never
0) whenever either operand is unknown". -/
theorem c6_counterexample :
    EstimateQuality "RMS_level_dB: -40.0" = .ok ⟨0, some (-40), none, none⟩ ∧
    peakSeries "RMS_level_dB: -40.0" = [] := by
  decide

unseal Rat.mul Rat.add Rat.sub Rat.inv in
/-- C6 (amended): an empty peak or noise series yields a NaN average that
propagates into the corresponding metric field; an empty RMS series makes
the estimator return an error (so RMS is never reported as 0); the SNR
equals `mean(peak) − mean(rms)` when both operands are known, and falls
back to the value `0` when the peak operand is unknown. -/
theorem c6_amended (out : String) :
    (∀ m, EstimateQuality out = .ok m →
      m.RMSLevel = avg (rmsSeries out) ∧
      m.RMSLevel.isSome = true ∧
      (peakSeries out = [] → m.PeakLevel = none) ∧
      (noiseSeries out = [] → m.NoiseLevel = none) ∧
      (∀ p r, m.PeakLevel = some p → m.RMSLevel = some r → m.SNR = p - r) ∧
      (m.PeakLevel = none → m.SNR = 0)) ∧
    (rmsSeries out = [] →
      EstimateQuality out = .error "no RMS_level values found") := by
  constructor
  · intro m hm
    by_cases h : rmsSeries out = []
    · simp [EstimateQuality, h] at hm
    · rw [EstimateQuality] at hm
      simp only [if_neg h, Except.ok.injEq] at hm
      subst hm
      refine ⟨rfl, ?_, ?_, ?_, ?_, ?_⟩
      · simp [avg, h]
      · intro hp; simp [avg, hp]
      · intro hn; simp [avg, hn]
      · intro p r hp hr
        simp only at hp hr
        simp [hp, hr]
      · intro hp
        simp only at hp
        simp [hp]
  · intro h
    simp [EstimateQuality, h]

unseal Rat.mul Rat.add Rat.sub Rat.inv in
/-- C6 amended, witness: on diagnostics with RMS reading `-40` and peak
reading `-10`, the theorem yields `SNR = -10 - (-40) = 30`. -/
theorem c6_amended_witness :
    EstimateQuality c6text = .ok ⟨30, some (-40), some (-10), none⟩ ∧
    (30 : ℚ) = -10 - (-40) := by
  have hok : EstimateQuality c6text = .ok ⟨30, some (-40), some (-10), none⟩ := by
    decide
  have h := ((c6_amended c6text).1 ⟨30, some (-40), some (-10), none⟩ hok).2.2.2.2.1
    (-10) (-40) rfl rfl
  exact ⟨hok, h⟩

/-! ## C1 — the job lifecycle state machine -/

/-- C1: for every job whose descriptor carries a well-formed identifier:
when `ProcessFile` succeeds and the upload succeeds, the observable
progress trajectory is exactly `0,10,20,70,100` and the job ends in
status `done`; when the apply pass fails, the trajectory is exactly
`0,10,20` and the job ends in status `failed` with the engine error text
as the error message, progress frozen at `20`; and in every trace, once a
terminal status is set, no later call writes the status column. -/
theorem c1_job_state_machine (w : WorkerEnv) (inputPath dn : String) :
    (w.validId = true → w.uploadOk = true →
      ∀ i ch nl, ProcessFile w.env inputPath (workerOpts dn) = .ok i ch nl →
        progressTrajectory (processSingleJob w inputPath dn) = [0, 10, 20, 70, 100] ∧
        runTrace initJob (processSingleJob w inputPath dn) = ⟨"done", 100, none⟩) ∧
    (w.validId = true →
      ∀ i ch m, ProcessFile w.env inputPath (workerOpts dn) = .applyFailed i ch m →
        progressTrajectory (processSingleJob w inputPath dn) = [0, 10, 20] ∧
        runTrace initJob (processSingleJob w inputPath dn) = ⟨"failed", 20, some m⟩) ∧
    noReentry (processSingleJob w inputPath dn) = true := by
  refine ⟨?_, ?_, ?_⟩
  · intro hv hu i ch nl hp
    constructor
    · simp [processSingleJob, hv, hu, hp, progressTrajectory, List.scanl,
        applyStoreCall, initJob, dedupAdj]
    · simp [processSingleJob, hv, hu, hp, runTrace, applyStoreCall, initJob]
  · intro hv i ch m hp
    constructor
    · simp [processSingleJob, hv, hp, progressTrajectory, List.scanl,
        applyStoreCall, initJob, dedupAdj]
    · simp [processSingleJob, hv, hp, runTrace, applyStoreCall, initJob]
  · cases hv : w.validId
    · simp [processSingleJob, hv, noReentry]
    · rcases hp : ProcessFile w.env inputPath (workerOpts dn) with m | ⟨i, ch, m⟩ | ⟨i, ch, nl⟩
      · simp [processSingleJob, hv, hp, noReentry, isTerminalCall, isStatusCall]
      · simp [processSingleJob, hv, hp, noReentry, isTerminalCall, isStatusCall]
      · cases hu : w.uploadOk <;>
          simp [processSingleJob, hv, hp, hu, noReentry, isTerminalCall, isStatusCall]

unseal Rat.mul Rat.add Rat.sub Rat.inv in
/-- C1 witness: in the all-succeeding environment the trajectory is
`0,10,20,70,100` ending `done`; in the apply-failing environment it is
`0,10,20` ending `failed` with the captured engine text. -/
theorem c1_witness :
    (progressTrajectory (processSingleJob wAllOk "in.wav" "afftdn") = [0, 10, 20, 70, 100] ∧
      runTrace initJob (processSingleJob wAllOk "in.wav" "afftdn") = ⟨"done", 100, none⟩) ∧
    (progressTrajectory (processSingleJob wApplyFail "in.wav" "afftdn") = [0, 10, 20] ∧
      runTrace initJob (processSingleJob wApplyFail "in.wav" "afftdn") =
        ⟨"failed", 20,
          some "ffmpeg apply failed: exit status 1 - stderr: Error while filtering"⟩) := by
  constructor
  · exact (c1_job_state_machine wAllOk "in.wav" "afftdn").1 rfl rfl
      "in.wav" (buildChain "afftdn" (workerOpts "afftdn")) (-30) (by decide)
  · exact (c1_job_state_machine wApplyFail "in.wav" "afftdn").2.1 rfl
      "in.wav" (buildChain "afftdn" (workerOpts "afftdn"))
      "ffmpeg apply failed: exit status 1 - stderr: Error while filtering" (by decide)

/-! ## C9 — missing binaries are per-job failures, not startup fatalities

The worker entrypoint (src/unnamed/part_001 `main`) checks the database,
the queue and the object store at startup, but not the engine binaries;
`ProcessFile` checks `exec.LookPath` per job and returns an error, which
`processSingleJob` turns into `SetFailed` — so a missing binary marks
individual jobs `failed` while the worker keeps consuming jobs. -/

unseal Rat.mul Rat.add Rat.sub Rat.inv in
/-- C9 counterexample: with ffmpeg absent from the execution path, the
job with a well-formed identifier is transitioned to `failed` with the
lookup error as its message by the per-job path — refuting "no individual
job is transitioned to 'failed' because of a missing binary while the
worker process keeps running". -/
theorem c9_counterexample :
    processSingleJob wNoFfmpeg "in.wav" "afftdn" =
      [.setStarted, .updateProgress 10, .updateProgress 20,
        .setFailed "ffmpeg not found in PATH: exec: \"ffmpeg\": executable file not found in $PATH"] ∧
    runTrace initJob (processSingleJob wNoFfmpeg "in.wav" "afftdn") =
      ⟨"failed", 20,
        some "ffmpeg not found in PATH: exec: \"ffmpeg\": executable file not found in $PATH"⟩ := by
  decide

/-- C9 (amended): a missing `ffmpeg` or `ffprobe` binary is detected
inside per-job processing, not at worker startup: `ProcessFile` returns
the `not found in PATH` error and the job is transitioned to `failed`
with that message, while the worker loop continues with the next job. -/
theorem c9_amended (w : WorkerEnv) (inputPath dn : String) (hv : w.validId = true) :
    (w.env.ffmpegPresent = false →
      processSingleJob w inputPath dn =
        [.setStarted, .updateProgress 10, .updateProgress 20,
          .setFailed ("ffmpeg not found in PATH: " ++ w.env.lookPathFfmpegErr)] ∧
      (runTrace initJob (processSingleJob w inputPath dn)).status = "failed") ∧
    (w.env.ffmpegPresent = true → w.env.ffprobePresent = false →
      processSingleJob w inputPath dn =
        [.setStarted, .updateProgress 10, .updateProgress 20,
          .setFailed ("ffprobe not found in PATH: " ++ w.env.lookPathFfprobeErr)] ∧
      (runTrace initJob (processSingleJob w inputPath dn)).status = "failed") := by
  constructor
  · intro hf
    simp [processSingleJob, hv, ProcessFile, hf, runTrace, applyStoreCall, initJob]
  · intro hf hp
    simp [processSingleJob, hv, ProcessFile, hf, hp, runTrace, applyStoreCall, initJob]

/-- C9 amended, witness. -/
theorem c9_amended_witness :
    processSingleJob wNoFfmpeg "in.wav" "afftdn" =
      [.setStarted, .updateProgress 10, .updateProgress 20,
        .setFailed ("ffmpeg not found in PATH: " ++ wNoFfmpeg.env.lookPathFfmpegErr)] ∧
    (runTrace initJob (processSingleJob wNoFfmpeg "in.wav" "afftdn")).status = "failed" :=
  (c9_amended wNoFfmpeg "in.wav" "afftdn" rfl).1 rfl

/-! ## C7 — a missing `mean_volume` token fails the whole job

`GetNoiseLevel` indeed fails only that call; but `ProcessFile`
(lines 82–85 of src/unnamed/part_004) propagates the error, so the apply
pass never runs and `processSingleJob` marks the job `failed`. -/

unseal Rat.mul Rat.add Rat.sub Rat.inv in
/-- C7 counterexample: in an environment where everything else would
succeed (apply pass and upload included) but the volumedetect diagnostics
carry no `mean_volume` token, `ProcessFile` aborts before the apply pass
and the job ends `failed` — refuting "the job as a whole still proceeds
and can still reach 'done'". -/
theorem c7_counterexample :
    wNoMeanVol.env.applyOk = true ∧ wNoMeanVol.uploadOk = true ∧
    ProcessFile wNoMeanVol.env "in.wav" (workerOpts "afftdn") =
      .earlyErr "GetNoiseLevel  not work with the PATH: mean_volume not found" ∧
    applyCallOf (ProcessFile wNoMeanVol.env "in.wav" (workerOpts "afftdn")) = none ∧
    runTrace initJob (processSingleJob wNoMeanVol "in.wav" "afftdn") =
      ⟨"failed", 20, some "GetNoiseLevel  not work with the PATH: mean_volume not found"⟩ := by
  decide

/-- C7 (amended): when the mean-volume estimator finds no token, that
`GetNoiseLevel` call fails — and `ProcessFile` propagates the failure:
the apply pass is never reached and the job is transitioned to `failed`
with the wrapped message; noise-floor estimation failure is a job
failure, not a degrade-and-continue error. -/
theorem c7_amended (w : WorkerEnv) (inputPath dn : String)
    (hv : w.validId = true) (hf : w.env.ffmpegPresent = true)
    (hp : w.env.ffprobePresent = true)
    (hmv : parseMeanVolume w.env.volumedetectOut = none) :
    GetNoiseLevel w.env inputPath = .error "mean_volume not found" ∧
    ProcessFile w.env inputPath (workerOpts dn) =
      .earlyErr "GetNoiseLevel  not work with the PATH: mean_volume not found" ∧
    applyCallOf (ProcessFile w.env inputPath (workerOpts dn)) = none ∧
    runTrace initJob (processSingleJob w inputPath dn) =
      ⟨"failed", 20, some "GetNoiseLevel  not work with the PATH: mean_volume not found"⟩ := by
  have hg : GetNoiseLevel w.env inputPath = .error "mean_volume not found" := by
    simp [GetNoiseLevel, hmv]
  have hpf : ProcessFile w.env inputPath (workerOpts dn) =
      .earlyErr "GetNoiseLevel  not work with the PATH: mean_volume not found" := by
    simp [ProcessFile, hf, hp, hg]
  refine ⟨hg, hpf, ?_, ?_⟩
  · simp [hpf, applyCallOf]
  · simp [processSingleJob, hv, hpf, runTrace, applyStoreCall, initJob]

unseal Rat.mul Rat.add Rat.sub Rat.inv in
/-- C7 amended, witness. -/
theorem c7_amended_witness :
    ProcessFile wNoMeanVol.env "in.wav" (workerOpts "afftdn") =
      .earlyErr "GetNoiseLevel  not work with the PATH: mean_volume not found" ∧
    runTrace initJob (processSingleJob wNoMeanVol "in.wav" "afftdn") =
      ⟨"failed", 20, some "GetNoiseLevel  not work with the PATH: mean_volume not found"⟩ := by
  have h := c7_amended wNoMeanVol "in.wav" "afftdn" rfl rfl rfl (by decide)
  exact ⟨h.2.1, h.2.2.2⟩

/-! ## C3 — external-denoiser degradation (`noisereduce`) -/

/-- C3: under the `noisereduce` method, no in-engine denoise stage is
ever added; on external-denoiser failure the apply-pass input is the
original input path, on success it is the denoiser output; and if the
remaining steps succeed, `ProcessFile` returns successfully despite the
denoiser failure — it never errors solely because of it. -/
theorem c3_external_denoiser_degradation (env : Env) (inputPathAbs : String)
    (opts : ProcessOptions) (hm : normMethod opts.DenoiseMethod = "noisereduce") :
    (resolveDenoise env inputPathAbs opts.DenoiseMethod).2 = "" ∧
    (env.noisereduceResult = none →
      (resolveDenoise env inputPathAbs opts.DenoiseMethod).1 = inputPathAbs) ∧
    (∀ p, env.noisereduceResult = some p →
      (resolveDenoise env inputPathAbs opts.DenoiseMethod).1 = p) ∧
    ((buildChain (resolveDenoise env inputPathAbs opts.DenoiseMethod).2 opts).all
      (fun s => !stageIsDenoise s)) = true ∧
    (env.ffmpegPresent = true → env.ffprobePresent = true → env.applyOk = true →
      ∀ v, parseMeanVolume env.volumedetectOut = some v →
        env.noisereduceResult = none →
          ProcessFile env inputPathAbs opts =
            .ok inputPathAbs (buildChain "" opts) v) := by
  have h2 : (resolveDenoise env inputPathAbs opts.DenoiseMethod).2 = "" := by
    rcases hnr : env.noisereduceResult with _ | p <;> simp [resolveDenoise, hm, hnr]
  refine ⟨h2, ?_, ?_, ?_, ?_⟩
  · intro hnr
    simp [resolveDenoise, hm, hnr]
  · intro p hnr
    simp [resolveDenoise, hm, hnr]
  · rw [h2]
    cases hc : opts.UseCompressor <;> cases hl : opts.UseLimiter <;>
      simp [buildChain, hc, hl, stageIsDenoise]
  · intro hf hpr ha v hmv hnr
    have hres : resolveDenoise env inputPathAbs opts.DenoiseMethod =
        (inputPathAbs, "") := by
      simp [resolveDenoise, hm, hnr]
    simp [ProcessFile, hf, hpr, GetNoiseLevel, hmv, hres, ha]

unseal Rat.mul Rat.add Rat.sub Rat.inv in
/-- C3 witness: with the external denoiser failing and every other step
succeeding, `ProcessFile` still returns successfully, with the original
input path and a chain without denoise stage. -/
theorem c3_witness :
    ProcessFile envAllOk "in.wav" (workerOpts "noisereduce") =
      .ok "in.wav" (buildChain "" (workerOpts "noisereduce")) (-30) := by
  exact (c3_external_denoiser_degradation envAllOk "in.wav" (workerOpts "noisereduce")
    (by decide)).2.2.2.2 rfl rfl rfl (-30) (by decide) rfl

/-! ## C5 — neural denoise method resolution -/

/-- C5: for the neural method (`arnndn`/`rnnoise`), the neural stage is
selected iff the engine capability check succeeds AND the model file
exists at the configured path; if either check fails the resolution falls
back to `afftdn`; when both pass the stage is `arnndn=m=<model path>`. -/
theorem c5_neural_resolution (env : Env) (inputPathAbs m : String)
    (hm : normMethod m = "arnndn" ∨ normMethod m = "rnnoise") :
    (isNeuralStage (resolveDenoise env inputPathAbs m).2 = true ↔
      (ffmpegHasFilter env "arnndn" = true ∧
        env.modelFileExists (rnModelPath env) = true)) ∧
    (¬(ffmpegHasFilter env "arnndn" = true ∧
        env.modelFileExists (rnModelPath env) = true) →
      (resolveDenoise env inputPathAbs m).2 = "afftdn") ∧
    (ffmpegHasFilter env "arnndn" = true →
      env.modelFileExists (rnModelPath env) = true →
      (resolveDenoise env inputPathAbs m).2 = "arnndn=m=" ++ rnModelPath env) := by
  have hnm : normMethod m ≠ "noisereduce" := by
    rcases hm with h | h <;> rw [h] <;> decide
  have hdisj : (normMethod m = "arnndn" || normMethod m = "rnnoise") = true := by
    rcases hm with h | h <;> simp [h]
  have hneu : ∀ p : String, isNeuralStage ("arnndn=m=" ++ p) = true := by
    intro p
    obtain ⟨pl⟩ := p
    rw [isNeuralStage, List.isPrefixOf_iff_prefix]
    exact List.prefix_append _ _
  cases hf : ffmpegHasFilter env "arnndn"
  · have hres : (resolveDenoise env inputPathAbs m).2 = "afftdn" := by
      simp [resolveDenoise, hnm, hdisj, hf]
    refine ⟨?_, fun _ => hres, fun hc _ => by simp [hf] at hc⟩
    rw [hres]
    simp [isNeuralStage, hf]
  · cases hx : env.modelFileExists (rnModelPath env)
    · have hres : (resolveDenoise env inputPathAbs m).2 = "afftdn" := by
        simp [resolveDenoise, hnm, hdisj, hf, hx]
      refine ⟨?_, fun _ => hres, fun _ hc => by simp [hx] at hc⟩
      rw [hres]
      simp [hx]
      decide
    · have hres : (resolveDenoise env inputPathAbs m).2 =
          "arnndn=m=" ++ rnModelPath env := by
        simp [resolveDenoise, hnm, hdisj, hf, hx]
      refine ⟨?_, ?_, fun _ _ => hres⟩
      · rw [hres]
        simp [hneu, hf, hx]
      · intro hc
        exact absurd ⟨rfl, rfl⟩ hc

unseal Rat.mul Rat.add Rat.sub Rat.inv in
/-- C5 witness: with the capability check passing and the model file
present, requesting `rnnoise` selects the neural stage at the default
model path. -/
theorem c5_witness :
    (resolveDenoise envAllOk "in.wav" "rnnoise").2 =
      "arnndn=m=tools/models/rnnoise-model.rnnn" := by
  have h := (c5_neural_resolution envAllOk "in.wav" "rnnoise"
    (Or.inr (by decide))).2.2 (by decide) (by decide)
  rw [h]
  decide

/-! ## C2 — filter-chain stage order -/

/-- C2: for every `ProcessOptions` and resolved denoise filter, the chain
is exactly: optional denoise stage first, then the loudnorm stage
(rendered `loudnorm=I=<target>:TP=-1.5:LRA=7`, true-peak and
loudness-range fixed), then the compressor stage iff `UseCompressor`,
then the limiter stage iff `UseLimiter`, and the `aresample` stage at the
configured rate always last. -/
theorem c2_chain_order (dn : String) (opts : ProcessOptions) :
    buildChain dn opts =
      (if dn = "" then [] else [Stage.denoise dn]) ++
      [Stage.loudnorm opts.TargetLUFS] ++
      (if opts.UseCompressor = true then
        [Stage.compressor opts.Compressor.ThresholdDB opts.Compressor.Ratio
          opts.Compressor.Attack opts.Compressor.Release]
      else []) ++
      (if opts.UseLimiter = true then [Stage.limiter opts.Limiter.ThresholdDB]
      else []) ++
      [Stage.resample opts.SampleRate] ∧
    renderStage (Stage.loudnorm opts.TargetLUFS) =
      "loudnorm=I=" ++ goFmtV opts.TargetLUFS ++ ":TP=-1.5:LRA=7" ∧
    (buildChain dn opts).getLast? = some (Stage.resample opts.SampleRate) := by
  refine ⟨?_, by simp [renderStage], ?_⟩
  · by_cases h : dn = "" <;> cases hc : opts.UseCompressor <;>
      cases hl : opts.UseLimiter <;> simp [buildChain, h, hc, hl]
  · rw [buildChain]
    simp only [List.getLast?_concat]


/-! ## C4 — dB → linear clamping, and C10 — threshold formatting

Supporting lemmas about the exact-real model of `math.Pow(10, dB/20)`
and the rounding bridge between the real and rational formatters. -/


lemma dbToLinear_pos (dB : ℚ) : 0 < dbToLinear dB :=
  Real.rpow_pos_of_pos (by norm_num) _

lemma dbToLinear_twentyMul (n : ℤ) : dbToLinear (20 * n) = (10 : ℝ) ^ n := by
  rw [dbToLinear]
  have h : ((20 * n : ℚ) : ℝ) / 20 = (n : ℝ) := by push_cast; ring
  rw [h, Real.rpow_intCast]

lemma dbToLinear_mono {a b : ℚ} (h : a ≤ b) : dbToLinear a ≤ dbToLinear b := by
  rw [dbToLinear, dbToLinear, Real.rpow_le_rpow_left_iff (by norm_num : (1:ℝ) < 10)]
  have h2 : (a : ℝ) ≤ (b : ℝ) := by exact_mod_cast h
  linarith

lemma dbToLinear_zero : dbToLinear 0 = 1 := by
  rw [dbToLinear]
  norm_num

lemma clampFloor_cast : (clampFloor : ℝ) = 976563 / 10 ^ 9 := by
  rw [clampFloor]; push_cast; norm_num

lemma raw_pow200 : dbToLinear (-601/10) ^ (200 : ℕ) = ((10 : ℝ) ^ (601 : ℕ))⁻¹ := by
  rw [dbToLinear]
  have e1 : ((-601/10 : ℚ) : ℝ) / 20 = (-601 : ℝ) / 200 := by push_cast; ring
  rw [e1, ← Real.rpow_natCast ((10:ℝ) ^ ((-601:ℝ)/200)) 200,
    ← Real.rpow_mul (by norm_num : (0:ℝ) ≤ 10)]
  have e2 : (-601 : ℝ) / 200 * (200:ℕ) = ((-601 : ℤ) : ℝ) := by push_cast; ring
  rw [e2, Real.rpow_intCast]
  rw [zpow_neg]
  norm_num

lemma floor_lt_raw : (clampFloor : ℝ) < dbToLinear (-601/10) := by
  have hnat : (976563 : ℕ) ^ 200 < 10 ^ 1199 := by norm_num
  have hreal : (976563 : ℝ) ^ (200:ℕ) < (10 : ℝ) ^ (1199:ℕ) := by exact_mod_cast hnat
  have hL : (clampFloor : ℝ) ^ (200 : ℕ) < ((10 : ℝ) ^ (601 : ℕ))⁻¹ := by
    rw [clampFloor_cast, div_pow, ← pow_mul]
    rw [inv_eq_one_div, div_lt_div_iff₀ (by positivity) (by positivity)]
    calc (976563:ℝ) ^ (200:ℕ) * (10:ℝ) ^ (601:ℕ)
        < (10:ℝ) ^ (1199:ℕ) * (10:ℝ) ^ (601:ℕ) := by
          exact mul_lt_mul_of_pos_right hreal (by positivity)
      _ = 1 * (10:ℝ) ^ (9 * 200 : ℕ) := by rw [← pow_add]; norm_num
  have h200 : (clampFloor : ℝ) ^ (200:ℕ) < dbToLinear (-601/10) ^ (200:ℕ) := by
    rw [raw_pow200]; exact hL
  by_contra hcon
  push_neg at hcon
  have : dbToLinear (-601/10) ^ (200:ℕ) ≤ (clampFloor : ℝ) ^ (200:ℕ) :=
    pow_le_pow_left₀ (dbToLinear_pos _).le hcon 200
  linarith

lemma raw_lt_one : dbToLinear (-601/10) < 1 := by
  rw [dbToLinear]
  apply Real.rpow_lt_one_of_one_lt_of_neg (by norm_num)
  have : ((-601/10 : ℚ) : ℝ) = -601/10 := by push_cast; ring
  rw [this]; norm_num






lemma round6R_ratCast (q : ℚ) : round6R (q : ℝ) = round6Q q := by
  rw [round6R, round6Q]
  have hy : ((q : ℝ) * 10 ^ 6) = ((q * 10 ^ 6 : ℚ) : ℝ) := by push_cast; ring
  rw [hy, Rat.floor_cast]
  have e : (((q * 10 ^ 6 : ℚ) : ℝ) - ((⌊q * 10 ^ 6⌋ : ℤ) : ℝ)) =
      ((q * 10 ^ 6 - ((⌊q * 10 ^ 6⌋ : ℤ) : ℚ) : ℚ) : ℝ) := by push_cast; ring
  rw [e, show (1/2 : ℝ) = ((1/2 : ℚ) : ℝ) by norm_num]
  simp only [Rat.cast_lt]



/-- C4 counterexample: the threshold `-60.1` dB lies outside `[-60, 0]`,
yet its raw conversion `10^(-60.1/20) ≈ 0.000989` is still above the
clamp floor `0.000976563` (which sits at ≈ `-60.206` dB), so the embedded
linear amplitude is the raw value and equals neither clamp boundary —
refuting "for every dB threshold outside [-60, 0] the linear amplitude
equals the corresponding clamp boundary". -/
theorem c4_counterexample :
    ¬((-60 : ℚ) ≤ -601 / 10) ∧ ((-601 / 10 : ℚ) ≤ 0) ∧
    dbToLinearClamped (-601 / 10) = dbToLinear (-601 / 10) ∧
    dbToLinearClamped (-601 / 10) ≠ (clampFloor : ℝ) ∧
    dbToLinearClamped (-601 / 10) ≠ 1 := by
  have hfl := floor_lt_raw
  have hlt1 := raw_lt_one
  have hcl : dbToLinearClamped (-601 / 10) = dbToLinear (-601 / 10) := by
    rw [dbToLinearClamped, clampLinear, if_neg (not_lt.mpr hfl.le),
      if_neg (not_lt.mpr hlt1.le)]
  refine ⟨by norm_num, by norm_num, hcl, ?_, ?_⟩
  · rw [hcl]; exact ne_of_gt hfl
  · rw [hcl]; exact ne_of_lt hlt1

/-- C4 (amended): thresholds above 0 dB clamp to the ceiling `1.0`;
thresholds whose raw conversion falls below the floor `0.000976563`
(i.e. below ≈ `-60.206` dB) clamp to the floor; whenever the raw
conversion lies within the engine's representable range
`[0.000976563, 1]` — which includes all of `[-60, 0]` and slightly
below — the raw value `10^(dB/20)` is used unchanged. -/
theorem c4_amended (dB : ℚ) :
    (0 < dB → dbToLinearClamped dB = 1) ∧
    (dbToLinear dB < (clampFloor : ℝ) → dbToLinearClamped dB = (clampFloor : ℝ)) ∧
    ((clampFloor : ℝ) ≤ dbToLinear dB → dbToLinear dB ≤ 1 →
      dbToLinearClamped dB = dbToLinear dB) ∧
    (-60 ≤ dB → dB ≤ 0 → dbToLinearClamped dB = dbToLinear dB) := by
  have hfloor1 : (clampFloor : ℝ) < 1 := by rw [clampFloor_cast]; norm_num
  refine ⟨?_, ?_, ?_, ?_⟩
  · intro h
    have h1 : 1 < dbToLinear dB := by
      rw [dbToLinear, Real.one_lt_rpow_iff_of_pos (by norm_num : (0:ℝ) < 10)]
      left
      refine ⟨by norm_num, ?_⟩
      have h2 : (0:ℝ) < (dB:ℝ) := by exact_mod_cast h
      linarith
    rw [dbToLinearClamped, clampLinear,
      if_neg (not_lt.mpr (le_of_lt (lt_trans hfloor1 h1))), if_pos h1]
  · intro h
    rw [dbToLinearClamped, clampLinear, if_pos h]
  · intro h1 h2
    rw [dbToLinearClamped, clampLinear, if_neg (not_lt.mpr h1),
      if_neg (not_lt.mpr h2)]
  · intro h1 h2
    have h3 : dbToLinear (-60) = 1 / 1000 := by
      have h4 := dbToLinear_twentyMul (-3)
      norm_num at h4
      exact h4
    have ha : (clampFloor : ℝ) ≤ dbToLinear dB := by
      calc (clampFloor : ℝ) ≤ 1 / 1000 := by
            rw [clampFloor_cast]; norm_num
        _ = dbToLinear (-60) := h3.symm
        _ ≤ dbToLinear dB := dbToLinear_mono h1
    have hb : dbToLinear dB ≤ 1 := by
      calc dbToLinear dB ≤ dbToLinear 0 := dbToLinear_mono h2
        _ = 1 := dbToLinear_zero
    rw [dbToLinearClamped, clampLinear, if_neg (not_lt.mpr ha),
      if_neg (not_lt.mpr hb)]

/-- C4 amended, witness: at `+20` dB the conversion clamps to `1`. -/
theorem c4_amended_witness :
    (0 : ℚ) < 20 ∧ dbToLinearClamped 20 = 1 :=
  ⟨by norm_num, (c4_amended 20).1 (by norm_num)⟩

unseal Rat.mul Rat.add Rat.sub Rat.inv in
/-- C10: the threshold formatter renders at most six digits after the
decimal point (it factors through rounding at the sixth decimal), strips
trailing zeros and a trailing dot, guards the empty result with `"0"`,
and consequently any threshold clamped to the floor `0.000976563` is
embedded in the limiter filter string as `0.000977`. -/
theorem c10_threshold_formatting :
    stripTrailingZeros clampFloor = "0.000977" ∧
    stripTrailingZeros 0 = "0" ∧
    (∀ x y : ℚ, round6Q x = round6Q y →
      stripTrailingZeros x = stripTrailingZeros y) ∧
    (∀ t : ℚ, dbToLinear t < (clampFloor : ℝ) →
      renderStage (Stage.limiter t) = "alimiter=limit=0.000977") := by
  refine ⟨by decide, by decide, ?_, ?_⟩
  · intro x y h
    rw [stripTrailingZeros, stripTrailingZeros, h]
  · intro t ht
    have hcl : dbToLinearClamped t = (clampFloor : ℝ) := by
      rw [dbToLinearClamped, clampLinear, if_pos ht]
    simp only [renderStage]
    rw [hcl, stripTrailingZerosR, round6R_ratCast]
    have hs : stripFromScaled (round6Q clampFloor) = "0.000977" := by decide
    rw [hs]
    rfl

unseal Rat.mul Rat.add Rat.sub Rat.inv in
/-- C10 witness: `-100` dB converts below the floor, and the limiter
stage renders the clamped threshold as `0.000977`. -/
theorem c10_witness :
    dbToLinear (-100) < (clampFloor : ℝ) ∧
    renderStage (Stage.limiter (-100)) = "alimiter=limit=0.000977" := by
  have h : dbToLinear (-100) < (clampFloor : ℝ) := by
    have h5 : dbToLinear (-100) = 1 / 100000 := by
      have h6 := dbToLinear_twentyMul (-5)
      norm_num at h6
      exact h6
    rw [h5, clampFloor_cast]
    norm_num
  exact ⟨h, c10_threshold_formatting.2.2.2 (-100) h⟩


end Blinky
